import Mathlib

namespace DDS

structure ScalerState where
  target_points : ℝ
  initial_milestone_value : ℝ
  visible_total_time : ℝ
  target_win_time : ℝ
  adjustment_rate : ℝ
  min_milestone_value : ℝ
  max_milestone_value : ℝ
  earned_points : ℝ
  milestone_value : ℝ
  visible_time_remaining : ℝ
  normal_time_reward : ℝ
  low_time_reward : ℝ
  high_time_threshold : ℝ
  low_time_threshold : ℝ
  high_time_cap : ℝ
  start_visible_total_time : ℝ
  awarded_time_ledger : ℝ
  visible_elapsed : Option ℝ

def init (target_points initial_milestone_value visible_total_time
    target_win_time adjustment_rate min_milestone_value
    max_milestone_value : ℝ) : ScalerState :=
  { target_points := target_points
    initial_milestone_value := initial_milestone_value
    visible_total_time := visible_total_time
    target_win_time := target_win_time
    adjustment_rate := adjustment_rate
    min_milestone_value := min_milestone_value
    max_milestone_value := max_milestone_value
    earned_points := 0
    milestone_value := initial_milestone_value
    visible_time_remaining := visible_total_time
    normal_time_reward := 1
    low_time_reward := 20
    high_time_threshold := 50
    low_time_threshold := 30
    high_time_cap := 5
    start_visible_total_time := visible_total_time
    awarded_time_ledger := 0
    visible_elapsed := none }

def set_progress (s : ScalerState) (points : ℝ) : ScalerState :=
  { s with earned_points := points }

def set_visible_time_remaining (s : ScalerState) (visible_time_remaining : ℝ) :
    ScalerState :=
  { s with visible_time_remaining := max 0 visible_time_remaining }

def set_visible_total_time (s : ScalerState) (visible_total_time : ℝ) :
    ScalerState :=
  { s with visible_total_time := max 0 visible_total_time }

def _effective_total (s : ScalerState) : ℝ :=
  max (s.start_visible_total_time + s.awarded_time_ledger)
    (max s.visible_total_time s.visible_time_remaining)

def set_visible_time (s : ScalerState) (remaining total : ℝ) : ScalerState :=
  let s1 := set_visible_time_remaining (set_visible_total_time s total) remaining
  let eff_total := _effective_total s1
  { s1 with visible_elapsed := some (max 0 (eff_total - remaining)) }

def add_visible_time (s : ScalerState) (delta_minutes : ℝ)
    (record_to_ledger : Bool) : ScalerState :=
  let dm := delta_minutes
  let vtr := max 0 (s.visible_time_remaining + dm)
  { s with
    visible_time_remaining := vtr
    visible_total_time := max s.visible_total_time vtr
    awarded_time_ledger :=
      if record_to_ledger then s.awarded_time_ledger + dm
      else s.awarded_time_ledger }

noncomputable def calculate_time_reward (s : ScalerState) : ℝ :=
  let vtr := max 0 s.visible_time_remaining
  let eff_total := max 1e-9 (_effective_total s)
  let t := max 0 (min (vtr / eff_total) 1)
  let base := s.normal_time_reward
  let max_late := s.low_time_reward
  if vtr < 20 then max_late
  else
    let cap :=
      if vtr ≥ s.high_time_threshold then s.high_time_cap
      else if vtr ≤ s.low_time_threshold then max_late
      else
        let span := max 1e-9 (s.high_time_threshold - s.low_time_threshold)
        let frac := (s.high_time_threshold - vtr) / span
        s.high_time_cap + (max_late - s.high_time_cap) * frac
    let reward := base + (max_late - base) * (1 - t) ^ 2
    max base (min reward cap)

noncomputable def complete_milestone (s : ScalerState) : ScalerState × ℝ :=
  let s' := { s with earned_points := s.earned_points + s.milestone_value }
  let time_bonus := calculate_time_reward s'
  (s', time_bonus)

noncomputable def roundEven (x : ℝ) : ℤ :=
  if Int.fract x = 1 / 2 then (if Even ⌊x⌋ then ⌊x⌋ else ⌊x⌋ + 1)
  else round x

noncomputable def update_milestone_value (s : ScalerState) : ScalerState × ℤ :=
  let vtr := s.visible_time_remaining
  let eff_total := _effective_total s
  let visible_elapsed := max 0 (eff_total - vtr)
  let elapsed_for_target := min visible_elapsed s.target_win_time
  let expected_points := (elapsed_for_target / s.target_win_time) * s.target_points
  let pace := if expected_points > 0 then s.earned_points / expected_points else 1
  let t := max 0 (min (vtr / eff_total) 1)
  let reduction_strength := s.adjustment_rate * (1 + t ^ 2)
  let increase_strength := s.adjustment_rate / (1 + t ^ 2)
  let mv :=
    if pace > 1 then s.milestone_value * (1 / pace) ^ reduction_strength
    else if pace < 1 then s.milestone_value * (1 + increase_strength * (1 - pace))
    else s.milestone_value
  let clamped := max s.min_milestone_value (min mv s.max_milestone_value)
  let result := roundEven clamped
  ({ s with milestone_value := (result : ℝ) }, result)

structure SavedRecord where
  target_points : Option ℝ
  initial_milestone_value : Option ℝ
  milestone_value : Option ℝ
  earned_points : Option ℝ
  visible_total_time : Option ℝ
  visible_time_remaining : Option ℝ
  target_win_time : Option ℝ
  normal_time_reward : Option ℝ
  low_time_reward : Option ℝ
  high_time_threshold : Option ℝ
  low_time_threshold : Option ℝ
  high_time_cap : Option ℝ
  start_visible_total_time : Option ℝ
  awarded_time_ledger : Option ℝ
  adjustment_rate : Option ℝ
  min_milestone_value : Option ℝ
  max_milestone_value : Option ℝ

def save_state (s : ScalerState) : SavedRecord :=
  { target_points := some s.target_points
    initial_milestone_value := some s.initial_milestone_value
    milestone_value := some s.milestone_value
    earned_points := some s.earned_points
    visible_total_time := some s.visible_total_time
    visible_time_remaining := some s.visible_time_remaining
    target_win_time := some s.target_win_time
    normal_time_reward := some s.normal_time_reward
    low_time_reward := some s.low_time_reward
    high_time_threshold := some s.high_time_threshold
    low_time_threshold := some s.low_time_threshold
    high_time_cap := some s.high_time_cap
    start_visible_total_time := some s.start_visible_total_time
    awarded_time_ledger := some s.awarded_time_ledger
    adjustment_rate := some s.adjustment_rate
    min_milestone_value := some s.min_milestone_value
    max_milestone_value := some s.max_milestone_value }

def load_state (s : ScalerState) : Option SavedRecord → Bool × ScalerState
  | none => (false, s)
  | some state =>
    (true,
      { s with
        target_points := state.target_points.getD s.target_points
        initial_milestone_value :=
          state.initial_milestone_value.getD s.initial_milestone_value
        milestone_value := state.milestone_value.getD s.milestone_value
        earned_points := state.earned_points.getD s.earned_points
        visible_total_time := state.visible_total_time.getD s.visible_total_time
        visible_time_remaining :=
          state.visible_time_remaining.getD s.visible_time_remaining
        target_win_time := state.target_win_time.getD s.target_win_time
        normal_time_reward := state.normal_time_reward.getD s.normal_time_reward
        low_time_reward := state.low_time_reward.getD s.low_time_reward
        high_time_threshold :=
          state.high_time_threshold.getD s.high_time_threshold
        low_time_threshold := state.low_time_threshold.getD s.low_time_threshold
        high_time_cap := state.high_time_cap.getD s.high_time_cap
        start_visible_total_time :=
          state.start_visible_total_time.getD s.start_visible_total_time
        awarded_time_ledger :=
          state.awarded_time_ledger.getD s.awarded_time_ledger
        adjustment_rate := state.adjustment_rate.getD s.adjustment_rate
        min_milestone_value :=
          state.min_milestone_value.getD s.min_milestone_value
        max_milestone_value :=
          state.max_milestone_value.getD s.max_milestone_value })

inductive Step : ScalerState → ScalerState → Prop where
  | set_vtr (s : ScalerState) (x : ℝ) : Step s (set_visible_time_remaining s x)
  | set_vtt (s : ScalerState) (x : ℝ) : Step s (set_visible_total_time s x)
  | set_vt (s : ScalerState) (r t : ℝ) : Step s (set_visible_time s r t)
  | add_vt (s : ScalerState) (d : ℝ) (b : Bool) :
      Step s (add_visible_time s d b)
  | complete (s : ScalerState) : Step s (complete_milestone s).1
  | update (s : ScalerState) : Step s (update_milestone_value s).1

def clamp (x lo hi : ℝ) : ℝ := max lo (min x hi)

/-- Reference formula for the time reward, following the words of the spec
(its section 4.2): the interpolated cap divides by the exact threshold span
`highTimeThreshold - lowTimeThreshold`, with no epsilon under the division. -/
noncomputable def time_reward_ref (s : ScalerState) : ℝ :=
  let vtr := max 0 s.visible_time_remaining
  let effTotal := max 1e-9 (_effective_total s)
  let t := clamp (vtr / effTotal) 0 1
  if vtr < 20 then s.low_time_reward
  else
    let cap :=
      if vtr ≥ s.high_time_threshold then s.high_time_cap
      else if vtr ≤ s.low_time_threshold then s.low_time_reward
      else
        let frac := (s.high_time_threshold - vtr) /
          (s.high_time_threshold - s.low_time_threshold)
        s.high_time_cap + (s.low_time_reward - s.high_time_cap) * frac
    clamp
      (s.normal_time_reward +
        (s.low_time_reward - s.normal_time_reward) * (1 - t) ^ 2)
      s.normal_time_reward cap

/-- Reference formula for the time reward, amended in one place: the cap
interpolation divides by `max 1e-9 (highTimeThreshold - lowTimeThreshold)`
instead of the exact span, matching the defensive clamp in the code. -/
noncomputable def time_reward_ref_guarded (s : ScalerState) : ℝ :=
  let vtr := max 0 s.visible_time_remaining
  let effTotal := max 1e-9 (_effective_total s)
  let t := clamp (vtr / effTotal) 0 1
  if vtr < 20 then s.low_time_reward
  else
    let cap :=
      if vtr ≥ s.high_time_threshold then s.high_time_cap
      else if vtr ≤ s.low_time_threshold then s.low_time_reward
      else
        let frac := (s.high_time_threshold - vtr) /
          max 1e-9 (s.high_time_threshold - s.low_time_threshold)
        s.high_time_cap + (s.low_time_reward - s.high_time_cap) * frac
    clamp
      (s.normal_time_reward +
        (s.low_time_reward - s.normal_time_reward) * (1 - t) ^ 2)
      s.normal_time_reward cap

/-- Reference formula for the milestone-value adjuster, following the words of
the spec (its section 4.3). -/
noncomputable def update_milestone_ref (s : ScalerState) : ScalerState × ℤ :=
  let effTotal := _effective_total s
  let visibleElapsed := max 0 (effTotal - s.visible_time_remaining)
  let expectedScore :=
    (min visibleElapsed s.target_win_time / s.target_win_time) *
      s.target_points
  let paceRatio :=
    if expectedScore > 0 then s.earned_points / expectedScore else 1
  let t := clamp (s.visible_time_remaining / effTotal) 0 1
  let newValue :=
    if paceRatio > 1 then
      s.milestone_value * (1 / paceRatio) ^ (s.adjustment_rate * (1 + t ^ 2))
    else if paceRatio < 1 then
      s.milestone_value *
        (1 + (s.adjustment_rate / (1 + t ^ 2)) * (1 - paceRatio))
    else s.milestone_value
  let stored :=
    roundEven (clamp newValue s.min_milestone_value s.max_milestone_value)
  ({ s with milestone_value := (stored : ℝ) }, stored)

/-- The body of `calculate_time_reward`, abstracted over the state fields it
reads; used to reason about the reward as a function of the remaining time. -/
noncomputable def reward_of (base ml hthr lthr hcap eff vtr : ℝ) : ℝ :=
  let t := max 0 (min (vtr / eff) 1)
  if vtr < 20 then ml
  else
    let cap :=
      if vtr ≥ hthr then hcap
      else if vtr ≤ lthr then ml
      else
        let span := max 1e-9 (hthr - lthr)
        let frac := (hthr - vtr) / span
        hcap + (ml - hcap) * frac
    let reward := base + (ml - base) * (1 - t) ^ 2
    max base (min reward cap)

lemma le_roundEven (a : ℤ) (x : ℝ) (h : (a : ℝ) ≤ x) : a ≤ roundEven x := by
  have hfl : a ≤ ⌊x⌋ := Int.le_floor.2 h
  unfold roundEven
  split_ifs with h1 h2
  · exact hfl
  · exact hfl.trans (by omega)
  · have hr : ⌊x⌋ ≤ round x := by
      rw [round_eq]
      exact Int.floor_le_floor (by linarith)
    exact hfl.trans hr

lemma roundEven_le (b : ℤ) (x : ℝ) (h : x ≤ (b : ℝ)) : roundEven x ≤ b := by
  have hfl : ⌊x⌋ ≤ b := by
    have h2 := Int.floor_le_floor h
    simpa using h2
  unfold roundEven
  split_ifs with h1 h2
  · exact hfl
  · have hx : x = (⌊x⌋ : ℝ) + 1 / 2 := by
      unfold Int.fract at h1
      linarith
    have hlt : (⌊x⌋ : ℝ) < (b : ℝ) := by linarith
    have := Int.cast_lt.1 hlt
    omega
  · rw [round_eq]
    have hlt : x + 1 / 2 < ((b + 1 : ℤ) : ℝ) := by push_cast; linarith
    have := Int.floor_lt.2 hlt
    omega

/-- Claim C10: for every input `p` (including negative values and values
smaller than the current score), `set_progress p` stores `earnedScore := p`
exactly, with no clamping and no other field modified. -/
theorem c10_set_progress_exact (s : ScalerState) (p : ℝ) :
    (set_progress s p).earned_points = p ∧
    (set_progress s p).target_points = s.target_points ∧
    (set_progress s p).initial_milestone_value = s.initial_milestone_value ∧
    (set_progress s p).visible_total_time = s.visible_total_time ∧
    (set_progress s p).target_win_time = s.target_win_time ∧
    (set_progress s p).adjustment_rate = s.adjustment_rate ∧
    (set_progress s p).min_milestone_value = s.min_milestone_value ∧
    (set_progress s p).max_milestone_value = s.max_milestone_value ∧
    (set_progress s p).milestone_value = s.milestone_value ∧
    (set_progress s p).visible_time_remaining = s.visible_time_remaining ∧
    (set_progress s p).normal_time_reward = s.normal_time_reward ∧
    (set_progress s p).low_time_reward = s.low_time_reward ∧
    (set_progress s p).high_time_threshold = s.high_time_threshold ∧
    (set_progress s p).low_time_threshold = s.low_time_threshold ∧
    (set_progress s p).high_time_cap = s.high_time_cap ∧
    (set_progress s p).start_visible_total_time = s.start_visible_total_time ∧
    (set_progress s p).awarded_time_ledger = s.awarded_time_ledger ∧
    (set_progress s p).visible_elapsed = s.visible_elapsed :=
  ⟨rfl, rfl, rfl, rfl, rfl, rfl, rfl, rfl, rfl, rfl, rfl, rfl, rfl, rfl, rfl,
    rfl, rfl, rfl⟩

/-- Claim C8: loading from a nonexistent path returns false and leaves every
state field exactly at its pre-call value (the pair is the pre-call state). -/
theorem c8_load_missing_noop (s : ScalerState) :
    load_state s none = (false, s) := rfl

/-- Claim C7: saving a state and loading the record into any freshly
constructed (or arbitrary) instance makes the load return true and every one
of the 17 persisted fields equal to the saved instance's field. -/
theorem c7_save_load_roundtrip (s s0 : ScalerState) :
    (load_state s0 (some (save_state s))).1 = true ∧
    (load_state s0 (some (save_state s))).2.target_points = s.target_points ∧
    (load_state s0 (some (save_state s))).2.initial_milestone_value =
      s.initial_milestone_value ∧
    (load_state s0 (some (save_state s))).2.milestone_value =
      s.milestone_value ∧
    (load_state s0 (some (save_state s))).2.earned_points = s.earned_points ∧
    (load_state s0 (some (save_state s))).2.visible_total_time =
      s.visible_total_time ∧
    (load_state s0 (some (save_state s))).2.visible_time_remaining =
      s.visible_time_remaining ∧
    (load_state s0 (some (save_state s))).2.target_win_time =
      s.target_win_time ∧
    (load_state s0 (some (save_state s))).2.normal_time_reward =
      s.normal_time_reward ∧
    (load_state s0 (some (save_state s))).2.low_time_reward =
      s.low_time_reward ∧
    (load_state s0 (some (save_state s))).2.high_time_threshold =
      s.high_time_threshold ∧
    (load_state s0 (some (save_state s))).2.low_time_threshold =
      s.low_time_threshold ∧
    (load_state s0 (some (save_state s))).2.high_time_cap =
      s.high_time_cap ∧
    (load_state s0 (some (save_state s))).2.start_visible_total_time =
      s.start_visible_total_time ∧
    (load_state s0 (some (save_state s))).2.awarded_time_ledger =
      s.awarded_time_ledger ∧
    (load_state s0 (some (save_state s))).2.adjustment_rate =
      s.adjustment_rate ∧
    (load_state s0 (some (save_state s))).2.min_milestone_value =
      s.min_milestone_value ∧
    (load_state s0 (some (save_state s))).2.max_milestone_value =
      s.max_milestone_value :=
  ⟨rfl, rfl, rfl, rfl, rfl, rfl, rfl, rfl, rfl, rfl, rfl, rfl, rfl, rfl, rfl,
    rfl, rfl, rfl⟩

/-- Claim C3: `update_milestone_value` computes exactly the pace-based
multiplicative adjustment described in the spec (section 4.3): pace ratio from
the robust visible elapsed time, strength factors from the clamped
time-fraction `t`, decay `(1/paceRatio)^(rate*(1+t^2))` when ahead of pace,
growth `1 + (rate/(1+t^2))*(1-paceRatio)` when behind, no change on pace, then
clamp, round, store and return. -/
theorem c3_update_milestone_matches_ref (s : ScalerState) :
    update_milestone_value s = update_milestone_ref s := rfl

/-- Claim C2 (amended): `calculate_time_reward` equals the spec's reference
formula once the cap interpolation's denominator is read as
`max 1e-9 (highTimeThreshold - lowTimeThreshold)` (the code's defensive
clamp) rather than the exact threshold span. -/
theorem c2_time_reward_matches_guarded_ref (s : ScalerState) :
    calculate_time_reward s = time_reward_ref_guarded s := rfl

/-- Claim C2 counterexample: with thresholds closer together than `1e-9`
(reachable via `load_state`), the code's span clamp changes the interpolated
cap, so `calculate_time_reward` differs from the claim's reference formula:
here the code returns 8 while the reference returns 12.5. -/
theorem c2_counterexample :
    calculate_time_reward
        { init 100 10 1000 400 (1/4) 1 20 with
          low_time_threshold := 50 - 4e-10
          visible_time_remaining := 50 - 2e-10 } ≠
      time_reward_ref
        { init 100 10 1000 400 (1/4) 1 20 with
          low_time_threshold := 50 - 4e-10
          visible_time_remaining := 50 - 2e-10 } := by
  have hcode : calculate_time_reward
      { init 100 10 1000 400 (1/4) 1 20 with
        low_time_threshold := 50 - 4e-10
        visible_time_remaining := 50 - 2e-10 } = 8 := by
    norm_num [calculate_time_reward, _effective_total, init, max_def, min_def]
  have href : time_reward_ref
      { init 100 10 1000 400 (1/4) 1 20 with
        low_time_threshold := 50 - 4e-10
        visible_time_remaining := 50 - 2e-10 } = 25 / 2 := by
    norm_num [time_reward_ref, _effective_total, clamp, init, max_def, min_def]
  rw [hcode, href]
  norm_num

/-- Claim C6: `complete_milestone` adds exactly the current milestone value to
the earned score, returns exactly `calculate_time_reward` of the resulting
state, changes no other field; and at the default configuration with
`earnedScore = 0`, `visibleTimeRemaining = 100`, `visibleTotalTime = 100` it
sets the earned score to 10 and returns 1. -/
theorem c6_complete_milestone_effect (s : ScalerState) :
    ((complete_milestone s).1.earned_points =
        s.earned_points + s.milestone_value ∧
      (complete_milestone s).2 =
        calculate_time_reward (complete_milestone s).1) ∧
    ((complete_milestone s).1.milestone_value = s.milestone_value ∧
      (complete_milestone s).1.visible_time_remaining =
        s.visible_time_remaining ∧
      (complete_milestone s).1.visible_total_time = s.visible_total_time ∧
      (complete_milestone s).1.awarded_time_ledger = s.awarded_time_ledger ∧
      (complete_milestone s).1.target_points = s.target_points ∧
      (complete_milestone s).1.initial_milestone_value =
        s.initial_milestone_value ∧
      (complete_milestone s).1.target_win_time = s.target_win_time ∧
      (complete_milestone s).1.adjustment_rate = s.adjustment_rate ∧
      (complete_milestone s).1.min_milestone_value = s.min_milestone_value ∧
      (complete_milestone s).1.max_milestone_value = s.max_milestone_value ∧
      (complete_milestone s).1.normal_time_reward = s.normal_time_reward ∧
      (complete_milestone s).1.low_time_reward = s.low_time_reward ∧
      (complete_milestone s).1.high_time_threshold = s.high_time_threshold ∧
      (complete_milestone s).1.low_time_threshold = s.low_time_threshold ∧
      (complete_milestone s).1.high_time_cap = s.high_time_cap ∧
      (complete_milestone s).1.start_visible_total_time =
        s.start_visible_total_time ∧
      (complete_milestone s).1.visible_elapsed = s.visible_elapsed) ∧
    ((complete_milestone (init 100 10 100 400 (1/4) 1 20)).1.earned_points =
        10 ∧
      (complete_milestone (init 100 10 100 400 (1/4) 1 20)).2 = 1) := by
  refine ⟨⟨rfl, rfl⟩,
    ⟨rfl, rfl, rfl, rfl, rfl, rfl, rfl, rfl, rfl, rfl, rfl, rfl, rfl, rfl,
      rfl, rfl, rfl⟩, ?_, ?_⟩
  · norm_num [complete_milestone, init]
  · norm_num [complete_milestone, calculate_time_reward, _effective_total,
      init, max_def, min_def]

/-- Claim C4 counterexample: with a non-integer upper bound
`maxMilestoneValue = 19.5`, the code clamps first and rounds afterwards, so
the stored value 20 exceeds the bound: the claimed interval membership fails.
(Pre-state: freshly constructed with `initialMilestoneValue = 100` and
`maxMilestoneValue = 39/2`; the pace ratio is neutral, so only clamping and
rounding act.) -/
theorem c4_counterexample :
    (init 100 100 100 400 (1/4) 1 (39/2)).max_milestone_value <
      (update_milestone_value
          (init 100 100 100 400 (1/4) 1 (39/2))).1.milestone_value := by
  have hval : (update_milestone_value
      (init 100 100 100 400 (1/4) 1 (39/2))).1.milestone_value = 20 := by
    have hfract : Int.fract ((39 : ℝ) / 2) = 1 / 2 := by
      unfold Int.fract
      norm_num [Int.floor_eq_iff]
    norm_num [update_milestone_value, roundEven, _effective_total, init,
      max_def, min_def, hfract, Int.floor_eq_iff]
    decide
  rw [hval]
  norm_num [init]

/-- Claim C4 (amended): after every call to `update_milestone_value`, from any
prior state whose bounds are integers with `minMilestoneValue ≤
maxMilestoneValue` (as in the default configuration 1 and 20), the stored
`milestoneValue` and the returned value lie in
`[minMilestoneValue, maxMilestoneValue]`, and the stored value is an integer
(the cast of the returned integer). -/
theorem c4_update_milestone_bounds (s : ScalerState) (a b : ℤ)
    (ha : s.min_milestone_value = (a : ℝ))
    (hb : s.max_milestone_value = (b : ℝ)) (hab : a ≤ b) :
    (a ≤ (update_milestone_value s).2 ∧ (update_milestone_value s).2 ≤ b) ∧
      (update_milestone_value s).1.milestone_value =
        (((update_milestone_value s).2 : ℤ) : ℝ) := by
  obtain ⟨mv, heq⟩ :
      ∃ mv : ℝ, (update_milestone_value s).2 =
        roundEven (max s.min_milestone_value (min mv s.max_milestone_value)) :=
    ⟨_, rfl⟩
  refine ⟨?_, rfl⟩
  rw [heq]
  constructor
  · apply le_roundEven
    rw [← ha]
    exact le_max_left _ _
  · apply roundEven_le
    rw [← hb]
    exact max_le (by rw [ha, hb]; exact_mod_cast hab) (min_le_right _ _)

/-- Claim C4 witness: the amended bounds hold at the default configuration. -/
theorem c4_update_milestone_bounds_witness :
    ((1 : ℤ) ≤ (update_milestone_value (init 100 10 100 400 (1/4) 1 20)).2 ∧
        (update_milestone_value (init 100 10 100 400 (1/4) 1 20)).2 ≤ 20) ∧
      (update_milestone_value
          (init 100 10 100 400 (1/4) 1 20)).1.milestone_value =
        ((((update_milestone_value
            (init 100 10 100 400 (1/4) 1 20)).2 : ℤ)) : ℝ) :=
  c4_update_milestone_bounds (init 100 10 100 400 (1/4) 1 20) 1 20
    (by norm_num [init]) (by norm_num [init]) (by decide)

/-- Claim C9 counterexample: the public score setter `set_progress` stores its
argument unclamped, so a single call with a negative argument from the default
initial state makes `earnedScore` both decrease and go negative. -/
theorem c9_counterexample :
    (set_progress (init 100 10 100 400 (1/4) 1 20) (-5)).earned_points <
        (init 100 10 100 400 (1/4) 1 20).earned_points ∧
      (set_progress (init 100 10 100 400 (1/4) 1 20) (-5)).earned_points <
        0 := by
  constructor <;> norm_num [set_progress, init]

/-- Claim C9 (amended): excluding `load_state` and `set_progress`, every
public operation leaves `earnedScore` unchanged except `complete_milestone`,
which adds the current `milestoneValue`; hence when the pre-state
`milestoneValue ≥ 0` the score is non-decreasing under all of them, and it
stays non-negative whenever it was non-negative. -/
theorem c9_earned_monotone (s : ScalerState) (x y r tt d : ℝ) (b : Bool)
    (hmv : 0 ≤ s.milestone_value) :
    (s.earned_points ≤ (set_visible_time_remaining s x).earned_points ∧
      s.earned_points ≤ (set_visible_total_time s y).earned_points ∧
      s.earned_points ≤ (set_visible_time s r tt).earned_points ∧
      s.earned_points ≤ (add_visible_time s d b).earned_points ∧
      s.earned_points ≤ (complete_milestone s).1.earned_points ∧
      s.earned_points ≤ (update_milestone_value s).1.earned_points) ∧
    (0 ≤ s.earned_points →
      0 ≤ (set_visible_time_remaining s x).earned_points ∧
      0 ≤ (set_visible_total_time s y).earned_points ∧
      0 ≤ (set_visible_time s r tt).earned_points ∧
      0 ≤ (add_visible_time s d b).earned_points ∧
      0 ≤ (complete_milestone s).1.earned_points ∧
      0 ≤ (update_milestone_value s).1.earned_points) := by
  have hcm : (complete_milestone s).1.earned_points =
      s.earned_points + s.milestone_value := rfl
  refine ⟨⟨le_rfl, le_rfl, le_rfl, le_rfl, ?_, le_rfl⟩, fun h0 =>
    ⟨h0, h0, h0, h0, ?_, h0⟩⟩
  · rw [hcm]; linarith
  · rw [hcm]; linarith

/-- Claim C9 witness: at the default initial state, completing a milestone
does not decrease the earned score. -/
theorem c9_earned_monotone_witness :
    (init 100 10 100 400 (1/4) 1 20).earned_points ≤
      (complete_milestone (init 100 10 100 400 (1/4) 1 20)).1.earned_points :=
  (c9_earned_monotone (init 100 10 100 400 (1/4) 1 20) 0 0 0 0 0 true
    (by norm_num [init])).1.2.2.2.2.1

/-- Claim C1: every state reachable from a validly constructed instance
(non-negative initial visible total time) through any sequence of the public
operations (both clock setters, the combined setter, `add_visible_time` with
any delta and ledger flag, `complete_milestone`, `update_milestone_value`)
has `visibleTimeRemaining ≥ 0` and derived elapsed time
`effectiveTotal - visibleTimeRemaining ≥ 0`. -/
theorem c1_reachable_invariant (tp imv vtt twt ar mn mx : ℝ)
    (hvtt : 0 ≤ vtt) (s : ScalerState)
    (h : Relation.ReflTransGen Step (init tp imv vtt twt ar mn mx) s) :
    0 ≤ s.visible_time_remaining ∧
      0 ≤ _effective_total s - s.visible_time_remaining := by
  have key : 0 ≤ s.visible_time_remaining := by
    induction h with
    | refl => exact hvtt
    | tail hsteps hstep ih =>
      cases hstep with
      | set_vtr x => exact le_max_left 0 x
      | set_vtt x => exact ih
      | set_vt r t => exact le_max_left 0 r
      | add_vt d b => exact le_max_left 0 _
      | complete => exact ih
      | update => exact ih
  refine ⟨key, sub_nonneg.2 ?_⟩
  exact le_trans
    (le_max_right s.visible_total_time s.visible_time_remaining)
    (le_max_right _ _)

/-- Claim C1 witness: the invariant at the default initial state itself. -/
theorem c1_reachable_invariant_witness :
    0 ≤ (init 100 10 100 400 (1/4) 1 20).visible_time_remaining ∧
      0 ≤ _effective_total (init 100 10 100 400 (1/4) 1 20) -
        (init 100 10 100 400 (1/4) 1 20).visible_time_remaining :=
  c1_reachable_invariant 100 10 100 400 (1/4) 1 20 (by norm_num) _
    Relation.ReflTransGen.refl

lemma div_max_self_mono (D a b : ℝ) (hD : 0 < D) (ha : 0 ≤ a) (hab : a ≤ b) :
    a / max D a ≤ b / max D b := by
  rcases le_or_lt b D with h | h
  · rw [max_eq_left h, max_eq_left (hab.trans h)]
    exact (div_le_div_iff_of_pos_right hD).2 hab
  · have hb0 : 0 < b := hD.trans h
    rw [max_eq_right h.le, div_self hb0.ne']
    exact div_le_one_of_le₀ (le_max_right D a)
      (hD.le.trans (le_max_left D a))

lemma eff_as_max (B T w : ℝ) :
    max 1e-9 (max B (max T w)) = max (max 1e-9 (max B T)) (max 0 w) := by
  have h0 : (0:ℝ) ≤ max 1e-9 (max B T) :=
    le_trans (by norm_num) (le_max_left 1e-9 (max B T))
  rw [← max_assoc B T w, ← max_assoc 1e-9 (max B T) w,
    ← max_assoc (max 1e-9 (max B T)) 0 w, max_eq_left h0]

lemma reward_of_antitone (base ml hthr lthr hcap D a b : ℝ) (hD : 0 < D)
    (hbase : base ≤ ml) (hcapml : hcap ≤ ml)
    (ha : 0 ≤ a) (hab : a ≤ b) :
    reward_of base ml hthr lthr hcap (max D b) b ≤
      reward_of base ml hthr lthr hcap (max D a) a := by
  have hb : 0 ≤ b := ha.trans hab
  have hDa : 0 < max D a := lt_of_lt_of_le hD (le_max_left _ _)
  have hDb : 0 < max D b := lt_of_lt_of_le hD (le_max_left _ _)
  have hta1 : a / max D a ≤ 1 := div_le_one_of_le₀ (le_max_right D a) hDa.le
  have htb1 : b / max D b ≤ 1 := div_le_one_of_le₀ (le_max_right D b) hDb.le
  have hta0 : 0 ≤ a / max D a := div_nonneg ha hDa.le
  have htb0 : 0 ≤ b / max D b := div_nonneg hb hDb.le
  have hta : max 0 (min (a / max D a) 1) = a / max D a := by
    rw [min_eq_left hta1, max_eq_right hta0]
  have htb : max 0 (min (b / max D b) 1) = b / max D b := by
    rw [min_eq_left htb1, max_eq_right htb0]
  have htm : a / max D a ≤ b / max D b := div_max_self_mono D a b hD ha hab
  have hspan : (0:ℝ) < max 1e-9 (hthr - lthr) :=
    lt_of_lt_of_le (by norm_num) (le_max_left _ _)
  have hcapmono :
      (if b ≥ hthr then hcap else if b ≤ lthr then ml
        else hcap + (ml - hcap) * ((hthr - b) / max 1e-9 (hthr - lthr)))
      ≤ if a ≥ hthr then hcap else if a ≤ lthr then ml
        else hcap + (ml - hcap) * ((hthr - a) / max 1e-9 (hthr - lthr)) := by
    split_ifs with h1 h2 h3 h4 h5 h6 h7
    · exact le_rfl
    · exact hcapml
    · exact le_add_of_nonneg_right
        (mul_nonneg (by linarith) (div_nonneg (by linarith) hspan.le))
    · linarith
    · exact le_rfl
    · linarith
    · linarith
    · have hfr1 : (hthr - b) / max 1e-9 (hthr - lthr) ≤ 1 := by
        rw [div_le_one hspan]
        exact le_trans (by linarith) (le_max_right _ _)
      have hnn : 0 ≤ (ml - hcap) *
          (1 - (hthr - b) / max 1e-9 (hthr - lthr)) :=
        mul_nonneg (by linarith) (by linarith)
      nlinarith [hnn]
    · have hfr : (hthr - b) / max 1e-9 (hthr - lthr) ≤
          (hthr - a) / max 1e-9 (hthr - lthr) :=
        (div_le_div_iff_of_pos_right hspan).2 (by linarith)
      exact add_le_add_left
        (mul_le_mul_of_nonneg_left hfr (by linarith)) hcap
  have hcaple :
      (if b ≥ hthr then hcap else if b ≤ lthr then ml
        else hcap + (ml - hcap) * ((hthr - b) / max 1e-9 (hthr - lthr)))
      ≤ ml := by
    split_ifs with h1 h2
    · exact hcapml
    · exact le_rfl
    · have hfr1 : (hthr - b) / max 1e-9 (hthr - lthr) ≤ 1 := by
        rw [div_le_one hspan]
        exact le_trans (by linarith) (le_max_right _ _)
      have hnn : 0 ≤ (ml - hcap) *
          (1 - (hthr - b) / max 1e-9 (hthr - lthr)) :=
        mul_nonneg (by linarith) (by linarith)
      nlinarith [hnn]
  have hcurve : base + (ml - base) * (1 - b / max D b) ^ 2 ≤
      base + (ml - base) * (1 - a / max D a) ^ 2 := by
    have hsq : (1 - b / max D b) ^ 2 ≤ (1 - a / max D a) ^ 2 :=
      pow_le_pow_left₀ (by linarith) (by linarith) 2
    nlinarith [hsq]
  simp only [reward_of]
  rw [hta, htb]
  rcases lt_or_le b 20 with hb20 | hb20
  · rw [if_pos hb20, if_pos (lt_of_le_of_lt hab hb20)]
  · rw [if_neg (not_lt.2 hb20)]
    rcases lt_or_le a 20 with ha20 | ha20
    · rw [if_pos ha20]
      exact max_le hbase (le_trans (min_le_right _ _) hcaple)
    · rw [if_neg (not_lt.2 ha20)]
      exact max_le_max le_rfl (min_le_min hcurve hcapmono)

/-- Claim C5 counterexample: with reward constants inverted via the
re-settable fields (`normalTimeReward = 5`, `lowTimeReward = 0`), decreasing
`visibleTimeRemaining` from 25 to 10 with all other fields identical makes
`calculate_time_reward` drop from 5 to 0, refuting the claimed monotonicity
over arbitrary states. -/
theorem c5_counterexample :
    calculate_time_reward
        { init 100 10 100 400 (1/4) 1 20 with
          normal_time_reward := 5
          low_time_reward := 0
          visible_time_remaining := 10 } <
      calculate_time_reward
        { init 100 10 100 400 (1/4) 1 20 with
          normal_time_reward := 5
          low_time_reward := 0
          visible_time_remaining := 25 } := by
  have h10 : calculate_time_reward
      { init 100 10 100 400 (1/4) 1 20 with
        normal_time_reward := 5
        low_time_reward := 0
        visible_time_remaining := 10 } = 0 := by
    norm_num [calculate_time_reward, _effective_total, init, max_def, min_def]
  have h25 : calculate_time_reward
      { init 100 10 100 400 (1/4) 1 20 with
        normal_time_reward := 5
        low_time_reward := 0
        visible_time_remaining := 25 } = 5 := by
    norm_num [calculate_time_reward, _effective_total, init, max_def, min_def]
  rw [h10, h25]
  norm_num

/-- Claim C5 (amended): holding all other fields fixed, decreasing
`visibleTimeRemaining` never decreases `calculate_time_reward`, provided the
reward constants satisfy `normalTimeReward ≤ lowTimeReward` and
`highTimeCap ≤ lowTimeReward` — both hold for the hard-coded constructor
constants (1, 20 and 5), which only `load_state` can alter. -/
theorem c5_reward_antitone (s : ScalerState) (v : ℝ)
    (hv : v ≤ s.visible_time_remaining)
    (hbase : s.normal_time_reward ≤ s.low_time_reward)
    (hcapml : s.high_time_cap ≤ s.low_time_reward) :
    calculate_time_reward s ≤
      calculate_time_reward { s with visible_time_remaining := v } := by
  have hD : (0:ℝ) < max 1e-9
      (max (s.start_visible_total_time + s.awarded_time_ledger)
        s.visible_total_time) :=
    lt_of_lt_of_le (by norm_num) (le_max_left _ _)
  have e1 : calculate_time_reward s =
      reward_of s.normal_time_reward s.low_time_reward s.high_time_threshold
        s.low_time_threshold s.high_time_cap
        (max 1e-9
          (max (s.start_visible_total_time + s.awarded_time_ledger)
            (max s.visible_total_time s.visible_time_remaining)))
        (max 0 s.visible_time_remaining) := rfl
  have e2 : calculate_time_reward { s with visible_time_remaining := v } =
      reward_of s.normal_time_reward s.low_time_reward s.high_time_threshold
        s.low_time_threshold s.high_time_cap
        (max 1e-9
          (max (s.start_visible_total_time + s.awarded_time_ledger)
            (max s.visible_total_time v)))
        (max 0 v) := rfl
  rw [e1, e2, eff_as_max, eff_as_max]
  exact reward_of_antitone s.normal_time_reward s.low_time_reward
    s.high_time_threshold s.low_time_threshold s.high_time_cap _ _ _ hD hbase
    hcapml (le_max_left 0 v) (max_le_max le_rfl hv)

/-- Claim C5 witness: at the default state (remaining 100), lowering the
remaining time to 50 does not decrease the reward. -/
theorem c5_reward_antitone_witness :
    calculate_time_reward (init 100 10 100 400 (1/4) 1 20) ≤
      calculate_time_reward
        { init 100 10 100 400 (1/4) 1 20 with
          visible_time_remaining := 50 } :=
  c5_reward_antitone (init 100 10 100 400 (1/4) 1 20) 50
    (by norm_num [init]) (by norm_num [init]) (by norm_num [init])

end DDS
